import Mathlib

/-!
Shallow embedding of the `agent-syscfg` repository (Go) for specification
checking.

The embedded code:

* `HealthySleep` (syscfg.go): an interruptible sleep that concurrently runs a
  1-second reporting cycle servicing a shared healthcheck flag.
* the signal listener of `setupExitSignalHandling` (main.go): classifies OS
  signals into terminate / reload / ignore / healthcheck-request / unknown.
* `LoadConfig` (syscfg.go) with a model of `encoding/json` unmarshalling into
  the `Config` / `LogConfig` structs.
* `EnforceUpgrades` and `writeFileIfNew` (upgrades.go), modelled as an effect
  trace over an abstract host environment.
-/

namespace Syscfg

/-! ## Interruptible healthcheck sleep (`HealthySleep`, syscfg.go lines 62-98)

The Go function spawns a reporting goroutine and then blocks in a select on
`ctx.Done()` versus `time.After(timeout)`.  We model one call as a timed
execution over absolute times in nanoseconds (`Nat`), the call starting at
time 0.  Go durations are int64 nanoseconds, so the timeout is an `Int` and
one second is `10^9`.

The reporting goroutine of the source runs iterations ("ticks") at times
0, 1s, 2s, ...: each iteration performs `hc.Swap(false)` (printing `HEALTHY`
when the swapped-out value was true), then checks the `stop` flag, then waits
in a select on `ctx.Done()` versus a fresh 1-second timer.

Same-instant races are resolved by fixed conventions, each noted where used:

* a `Store(true)` of the flag at exactly a tick's time is observed by the
  next tick, not that one;
* the `stop` flag (set when the main body returns) is observed by a tick
  strictly later than the return time, so the goroutine runs at most one
  more iteration after the return;
* in the goroutine's select, a cancellation at exactly the 1-second timer's
  deadline wins over the timer;
* in the main select, simultaneous readiness of cancellation and timeout is
  resolved by the explicit tie-break input `mainBias`
  (Go's select chooses pseudo-randomly among ready cases).
-/

/-- One second in nanoseconds (`time.Second`). -/
def sec : Nat := 1000000000

/-- Inputs of one `HealthySleep` call: the timeout argument, whether the
context carries the `*atomic.Bool` healthcheck flag under `HCReqKey`
(`hcPresent`), the flag's value at call entry (`f0`), the times at which the
signal listener stores `true` into the flag (`flagSets`), the time at which
`ctx.Done()` fires if any (`cancelAt`), and the select tie-break
(`mainBias = true` means the timeout branch wins a simultaneous tie). -/
structure HSInput where
  timeout : Int
  hcPresent : Bool
  f0 : Bool
  flagSets : List Nat
  cancelAt : Option Nat
  mainBias : Bool
deriving DecidableEq

/-- Absolute time at which `time.After(timeout)` fires: Go timers with a
non-positive duration fire immediately. -/
def fireTime (i : HSInput) : Nat := (max i.timeout 0).toNat

/-- Return time and return value of the main body's select loop
(syscfg.go lines 90-97): whichever of `ctx.Done()` and the timeout timer is
ready first decides, a simultaneous tie is decided by `mainBias`. -/
def mainReturn (i : HSInput) : Nat × Bool :=
  match i.cancelAt with
  | none => (fireTime i, true)
  | some c =>
    if c < fireTime i then (c, false)
    else if fireTime i < c then (fireTime i, true)
    else (fireTime i, i.mainBias)

/-- Time at which the call returns control to its caller. -/
def retTime (i : HSInput) : Nat := (mainReturn i).1

/-- Boolean returned by the call. -/
def retVal (i : HSInput) : Bool := (mainReturn i).2

/-- Observable outcome of a `HealthySleep` call: either the process panics,
or the call returns a boolean at some time. -/
inductive HSOutcome where
  | panicked
  | returned (v : Bool) (t : Nat)
deriving DecidableEq

/-- Outcome of the call.  When the context does not carry the healthcheck
value (`!ok` in the source), `hc` is a nil `*atomic.Bool`; the reporting
goroutine's first action `hc.Swap(false)` dereferences nil and panics, which
in Go crashes the whole process. -/
def healthySleep (i : HSInput) : HSOutcome :=
  if i.hcPresent then .returned (retVal i) (retTime i) else .panicked

/-- The diagnostic line `context passed to HealthySleep without healthcheck
value` is printed exactly when the context value is missing
(syscfg.go lines 63-68). -/
def healthySleepDiag (i : HSInput) : Bool := !i.hcPresent

/-- Whether the reporting goroutine performs the `Swap` of tick `k`
(at time `k * sec`).  Tick 0 runs unconditionally when the goroutine is
spawned.  Tick `k+1` requires that no earlier tick observed the `stop` flag
(the goroutine exits at the first tick strictly later than the return time,
after its `Swap`) and that `ctx.Done()` did not fire at or before the tick's
deadline during any of the preceding selects. -/
def reachesTick (i : HSInput) (k : Nat) : Bool :=
  i.hcPresent &&
    (k == 0 ||
      ((k - 1) * sec ≤ retTime i &&
        (match i.cancelAt with
         | none => true
         | some c => k * sec < c)))

/-- Whether the flag is true when tick `k`'s `Swap` runs: at tick 0 this is
the entry value `f0`; at tick `k+1` it is whether some store happened in the
window `[k * sec, (k+1) * sec)` (earlier stores were cleared by earlier
swaps; a store at exactly the tick's own time is seen by the next tick). -/
def pendingAtTick (i : HSInput) (k : Nat) : Bool :=
  if k = 0 then i.f0
  else i.flagSets.any (fun s => decide ((k - 1) * sec ≤ s) && decide (s < k * sec))

/-- Whether a `HEALTHY` line is printed at tick `k` (time `k * sec`): the
goroutine reaches the tick and the swapped-out flag value is true. -/
def printsAtTick (i : HSInput) (k : Nat) : Bool :=
  reachesTick i k && pendingAtTick i k

/-- Upper bound (exclusive) on reachable tick indices. -/
def tickBound (i : HSInput) : Nat := retTime i / sec + 2

/-- Ticks at which a `HEALTHY` line is printed strictly before the call
returns. -/
def printsBefore (i : HSInput) : List Nat :=
  (List.range (tickBound i)).filter (fun k => printsAtTick i k && decide (k * sec < retTime i))

/-! ## Signal listener (`setupExitSignalHandling`, main.go lines 87-132)

The listener goroutine reads one signal at a time from `sigChan` and switches
on it.  We model the signals the switch distinguishes, the listener's state,
and one step of its loop.  After the listener returns (terminate class), the
deferred `cancel()` has run; no listener code runs any more, so a step on an
exited state changes nothing (in the real process, interrupt/terminate/abort
are also OS-ignored from that point on via `signal.Ignore`). -/

/-- OS signals distinguished by the listener's switch. -/
inductive Sig where
  | interrupt
  | quit
  | abrt
  | term
  | hup
  | urg
  | usr1
  | other (n : Nat)
deriving DecidableEq

/-- State shared between the listener and the rest of the process:
`cancelCount` counts the calls of the context's `cancel` function (the
cancellation signal has fired iff it is positive), `hcFlag` is the
`healthcheckRequest` atomic boolean, `ignored` is the set of signals
suppressed via `signal.Ignore`, `exited` records that the listener goroutine
returned, and `logs` the logger lines it emitted. -/
structure LState where
  cancelCount : Nat
  hcFlag : Bool
  ignored : List Sig
  exited : Bool
  logs : List String
deriving DecidableEq

/-- Listener state right after `setupExitSignalHandling` starts the
goroutine. -/
def initLState : LState :=
  { cancelCount := 0, hcFlag := false, ignored := [], exited := false, logs := [] }

/-- One iteration of the listener loop on a received signal (main.go lines
98-127).  Interrupt, quit, abort and terminate all fall through to the same
terminate branch: log, `signal.Ignore(os.Interrupt, SIGTERM, SIGABRT)`
(deliberately not SIGQUIT), and return, which runs the deferred `cancel()`.
SIGHUP and SIGURG do nothing, SIGUSR1 stores true into the healthcheck flag,
anything else is logged at debug level. -/
def listenerStep (s : LState) (sig : Sig) : LState :=
  if s.exited then s
  else
    match sig with
    | .interrupt | .quit | .abrt | .term =>
      { s with
        logs := s.logs ++ ["exit signal received"],
        ignored := [.interrupt, .term, .abrt],
        exited := true,
        cancelCount := s.cancelCount + 1 }
    | .hup => s
    | .urg => s
    | .usr1 => { s with hcFlag := true }
    | .other _ => { s with logs := s.logs ++ ["received unknown signal"] }

/-- The listener consuming a sequence of delivered signals in order. -/
def listenerRun (s : LState) (sigs : List Sig) : LState :=
  sigs.foldl listenerStep s

/-- The terminate class of signals. -/
def termClass : Sig → Bool
  | .interrupt | .quit | .abrt | .term => true
  | _ => false

/-- The signal set registered with `signal.Notify` (main.go line 130):
`os.Interrupt, syscall.SIGTERM, syscall.SIGABRT, syscall.SIGUSR1`. -/
def registeredSignals : List Sig := [.interrupt, .term, .abrt, .usr1]

/-- Whether a delivered signal is forwarded to `sigChan` (it is iff it was
registered with `signal.Notify`); an unregistered signal goes to the default
OS handler instead. -/
def deliveredToListener (sig : Sig) : Bool := sig ∈ registeredSignals

/-! ## Config loading (`LoadConfig`, syscfg.go lines 36-56)

`Config` has a single field `Logging` tagged `json:"logging"`; `LogConfig`
(logging.go) has `Disable`, `SystemMaxUse`, `RuntimeMaxUse`.  We model JSON
values and the part of `encoding/json.Unmarshal` these two structs exercise:
the document must be an object (or `null`, which leaves the target
untouched), fields are processed in document order with later duplicates
overwriting earlier ones, an incoming key is matched against a field's tag
preferring an exact match but also accepting a case-insensitive match (Go's
`strings.EqualFold`; the structs' tags are pairwise distinct after folding,
so this reduces to fold-equality against each tag), keys matching no field
are ignored, a value of the wrong type for a field is a type error, and
`null` for a field leaves it at its zero value.  `Unmarshal` actually keeps
decoding after a type error and reports the earliest one; since
`LoadConfig` discards the partially decoded struct and returns a fresh
`&Config{}` whenever the error is non-nil, stopping at the first error is
observationally the same at `LoadConfig`'s interface. -/

/-- Canonical representative of a character's `unicode.SimpleFold` orbit,
for the orbits that meet ASCII: ASCII letters fold to lowercase, and the
two non-ASCII characters whose orbits contain an ASCII letter — long s
(U+017F, folding with `s`) and the Kelvin sign (U+212A, folding with `k`) —
fold to that letter.  Orbits not meeting ASCII are left alone, which is
enough to compare against the structs' ASCII field tags exactly as
`strings.EqualFold` does. -/
def charFoldGo (c : Char) : Char :=
  if c = Char.ofNat 0x017F then 's'
  else if c = Char.ofNat 0x212A then 'k'
  else c.toLower

/-- Go's `strings.EqualFold` on an incoming JSON key and an ASCII-lowercase
field tag: equality of the character-wise fold images. -/
def eqFold (a b : String) : Bool :=
  a.toList.map charFoldGo == b.toList.map charFoldGo

/-- JSON values. -/
inductive JsonVal where
  | null
  | bool (b : Bool)
  | num (n : Int)
  | str (s : String)
  | obj (fields : List (String × JsonVal))

/-- Last binding of a key in a JSON object (later duplicate keys overwrite
earlier ones in `encoding/json`); `none` on non-objects or absent keys. -/
def JsonVal.getField : JsonVal → String → Option JsonVal
  | .obj fields, key => ((fields.filter (fun kv => kv.1 == key)).getLast?).map (fun kv => kv.2)
  | _, _ => none

/-- The `LogConfig` struct (logging.go): `Disable`, `SystemMaxUse`,
`RuntimeMaxUse`, with JSON tags `disable`, `system_max_use`,
`runtime_max_use`. -/
structure LogConfig where
  disable : Bool
  system_max_use : String
  runtime_max_use : String
deriving DecidableEq

/-- The zero value of `LogConfig`. -/
def LogConfig.zero : LogConfig := ⟨false, "", ""⟩

/-- The `Config` struct (syscfg.go lines 36-38): a single field `Logging`
tagged `json:"logging"`.  There is no upgrades field. -/
structure Config where
  logging : LogConfig
deriving DecidableEq

/-- The zero value of `Config`, as returned by `&Config{}`. -/
def Config.zero : Config := ⟨LogConfig.zero⟩

/-- Decoding one object field into a `LogConfig`: a key matching a field
tag case-insensitively sets the corresponding struct field (`null` leaves
it unchanged, a wrong type is an error), any other key is ignored. -/
def decodeLogField (lc : LogConfig) (kv : String × JsonVal) : Except String LogConfig :=
  if eqFold kv.1 "disable" then
    match kv.2 with
    | .bool b => .ok { lc with disable := b }
    | .null => .ok lc
    | _ => .error "json: cannot unmarshal value into Go field of type bool"
  else if eqFold kv.1 "system_max_use" then
    match kv.2 with
    | .str s => .ok { lc with system_max_use := s }
    | .null => .ok lc
    | _ => .error "json: cannot unmarshal value into Go field of type string"
  else if eqFold kv.1 "runtime_max_use" then
    match kv.2 with
    | .str s => .ok { lc with runtime_max_use := s }
    | .null => .ok lc
    | _ => .error "json: cannot unmarshal value into Go field of type string"
  else .ok lc

/-- Decoding a list of object fields into a `LogConfig`, in order. -/
def decodeLogFields : List (String × JsonVal) → LogConfig → Except String LogConfig
  | [], lc => .ok lc
  | kv :: rest, lc =>
    match decodeLogField lc kv with
    | .ok lc2 => decodeLogFields rest lc2
    | .error e => .error e

/-- Unmarshalling a JSON value into a `LogConfig`. -/
def decodeLogConfig : JsonVal → LogConfig → Except String LogConfig
  | .null, lc => .ok lc
  | .obj fields, lc => decodeLogFields fields lc
  | _, _ => .error "json: cannot unmarshal value into Go value of type LogConfig"

/-- Decoding a list of object fields into a `Config`: only a key matching
the tag `logging` case-insensitively matches a struct field; every other
key is ignored. -/
def decodeConfigFields : List (String × JsonVal) → Config → Except String Config
  | [], c => .ok c
  | (key, v) :: rest, c =>
    if eqFold key "logging" then
      match decodeLogConfig v c.logging with
      | .ok lc => decodeConfigFields rest ⟨lc⟩
      | .error e => .error e
    else decodeConfigFields rest c

/-- Unmarshalling a JSON document into a `Config` (the
`json.Unmarshal(jsonBytes, newConfig)` call of `LoadConfig`). -/
def decodeConfig : JsonVal → Except String Config
  | .null => .ok Config.zero
  | .obj fields => decodeConfigFields fields Config.zero
  | _ => .error "json: cannot unmarshal value into Go value of type Config"

/-- What the file system holds at the config path: no file, a file whose
read fails with an error other than not-exist, or a readable file whose
bytes either are not valid JSON (`parseFail`) or parse to a JSON value. -/
inductive FileContent where
  | absent
  | unreadable
  | parseFail
  | json (j : JsonVal)

/-- `LoadConfig` (syscfg.go lines 40-56): a not-exist read error yields the
empty config and no error; any other read error, a JSON syntax error, or an
unmarshal error yields the empty config and that error. -/
def LoadConfig : FileContent → Config × Option String
  | .absent => (Config.zero, none)
  | .unreadable => (Config.zero, some "read error")
  | .parseFail => (Config.zero, some "invalid character in JSON input")
  | .json j =>
    match decodeConfig j with
    | .ok c => (c, none)
    | .error e => (Config.zero, some e)

/-- The upgrades policy string carried by a JSON config document under
`upgrades.type`, if any: used to state what information the claim says the
loaded `Config` should carry. -/
def upgradesTypeOf (j : JsonVal) : Option String :=
  match (j.getField "upgrades").bind (fun u => u.getField "type") with
  | some (.str s) => some s
  | _ => none

/-- Sample config document with both top-level keys and upgrades policy
`all`. -/
def sampleConfigAll : JsonVal :=
  .obj [("logging", .obj [("disable", .bool true)]),
        ("upgrades", .obj [("type", .str "all")])]

/-- Sample config document identical to `sampleConfigAll` except for the
upgrades policy, which is `security`. -/
def sampleConfigSecurity : JsonVal :=
  .obj [("logging", .obj [("disable", .bool true)]),
        ("upgrades", .obj [("type", .str "security")])]

/-! ## Upgrade enforcement (`EnforceUpgrades`, upgrades.go lines 18-97, and
`writeFileIfNew`, syscfg.go lines 63-85)

`EnforceUpgrades` is sequential code shelling out to apt/systemctl and
writing apt configuration fragments.  We model a call as the list of
externally visible effects it performs, over an abstract host environment
(current file contents, distro identity, and success of the external
commands).  File reads are modelled as succeeding or reporting not-exist
(the current content is an `Option String`), and directory creation and
writes as succeeding; `verifyInstall` (a pure query, `unattended-upgrade
-h`) is represented by the environment bit `unattendedInstalled`, and the
`Origins-Pattern` contents produced by `generateOrigins` (whose regex and
map iteration are out of the claims' scope) by the environment strings
`originsSecurity` / `originsAll`. -/

/-- Whether `pat` starts the character list. -/
def listStartsWith : List Char → List Char → Bool
  | [], _ => true
  | _ :: _, [] => false
  | a :: as, b :: bs => a == b && listStartsWith as bs

/-- Whether `pat` occurs as a contiguous subsequence. -/
def listContainsSeq (pat : List Char) : List Char → Bool
  | [] => listStartsWith pat []
  | c :: rest => listStartsWith pat (c :: rest) || listContainsSeq pat rest

/-- Go's `strings.Contains(s, pat)`. -/
def strContains (s pat : String) : Bool := listContainsSeq pat.toList s.toList

/-- Path constants of upgrades.go lines 19-23. -/
def autoUpgradesPath : String := "/etc/apt/apt.conf.d/20auto-upgrades"

/-- Contents enabling unattended upgrades. -/
def autoUpgradesContentsEnabled : String :=
  "APT::Periodic::Update-Package-Lists \"1\";\nAPT::Periodic::Unattended-Upgrade \"1\";\n"

/-- Contents disabling unattended upgrades. -/
def autoUpgradesContentsDisabled : String :=
  "APT::Periodic::Update-Package-Lists \"1\";\nAPT::Periodic::Unattended-Upgrade \"0\";\n"

/-- Path of the generated origins file. -/
def unattendedUpgradesPath : String := "/etc/apt/apt.conf.d/50unattended-upgrades"

/-- The `UpgradesConfig` struct (upgrades.go lines 26-33): the policy string
`Type`, documented as empty, `"disable"` (or `"disabled"`), `"security"` or
`"all"`. -/
structure UpgradesConfig where
  type : String
deriving DecidableEq

/-- Abstract host environment an `EnforceUpgrades` call runs against. -/
structure UpgEnv where
  osRelease : Option String
  autoUpgradesCur : Option String
  unattendedCur : Option String
  unattendedInstalled : Bool
  installOk : Bool
  aptCacheOk : Bool
  originsSecurity : String
  originsAll : String
deriving DecidableEq

/-- Externally visible effects of `EnforceUpgrades`. -/
inductive UpgEffect where
  | logError (msg : String)
  | logInfo (msg : String)
  | mkdirFor (p : String)
  | writeFile (p : String) (content : String)
  | aptUpdateInstall
  | aptCachePolicy
  | systemctlEnableTimer
deriving DecidableEq

/-- `checkSupportedDistro` (upgrades.go lines 99-110): read
`/etc/os-release` and require the bookworm or bullseye codename. -/
def checkSupportedDistro (env : UpgEnv) : Except String Unit :=
  match env.osRelease with
  | none => .error "reading /etc/os-release failed"
  | some data =>
    if strContains data "VERSION_CODENAME=bookworm" || strContains data "VERSION_CODENAME=bullseye" then
      .ok ()
    else
      .error "cannot enable automatic upgrades for unknown distro, only support for Debian bullseye and bookworm is available"

/-- `writeFileIfNew` (syscfg.go lines 63-85): read the current file (a
not-exist error falls through to the write); if the contents already equal
`data`, do nothing and report `false`; otherwise create the directory,
write the file, and report `true`. -/
def writeFileIfNew (cur : Option String) (outPath data : String) : Bool × List UpgEffect :=
  match cur with
  | some content =>
    if content == data then (false, [])
    else (true, [.mkdirFor outPath, .writeFile outPath data])
  | none => (true, [.mkdirFor outPath, .writeFile outPath data])

/-- `EnforceUpgrades` (upgrades.go lines 35-97) as an effect trace: empty
policy does nothing; an unsupported distro only logs an error; `"disable"`
or `"disabled"` idempotently writes the disabling fragment and returns; any
other policy installs the package if needed, generates origins via
`apt-cache policy`, idempotently writes both fragments, logs when something
changed, and enables the apt timer. -/
def EnforceUpgrades (env : UpgEnv) (cfg : UpgradesConfig) : List UpgEffect :=
  if cfg.type == "" then []
  else
    match checkSupportedDistro env with
    | .error e => [.logError e]
    | .ok _ =>
      if cfg.type == "disable" || cfg.type == "disabled" then
        let w := writeFileIfNew env.autoUpgradesCur autoUpgradesPath autoUpgradesContentsDisabled
        w.2 ++ (if w.1 then [.logInfo "Disabled OS auto-upgrades."] else [])
      else
        let installEffs : List UpgEffect :=
          if env.unattendedInstalled then [] else [.aptUpdateInstall]
        if !env.unattendedInstalled && !env.installOk then
          installEffs ++ [.logError "installing unattended-upgrades failed"]
        else if !env.aptCacheOk then
          installEffs ++ [.aptCachePolicy, .logError "executing apt-cache policy failed"]
        else
          let securityOnly := cfg.type == "security"
          let conf := if securityOnly then env.originsSecurity else env.originsAll
          let w1 := writeFileIfNew env.autoUpgradesCur autoUpgradesPath autoUpgradesContentsEnabled
          let w2 := writeFileIfNew env.unattendedCur unattendedUpgradesPath conf
          installEffs ++ [.aptCachePolicy] ++ w1.2 ++ w2.2 ++
            (if w1.1 || w2.1 then
              [.logInfo (if securityOnly then "Enabled OS auto-upgrades (security only.)"
                         else "Enabled OS auto-upgrades (full.)")]
             else []) ++ [.systemctlEnableTimer]

/-! ## Helper lemmas -/

/-- Any printing tick lies below `tickBound`, so lists filtered from
`List.range (tickBound i)` are exhaustive. -/
theorem printsAtTick_lt_tickBound (i : HSInput) (k : Nat)
    (h : printsAtTick i k = true) : k < tickBound i := by
  unfold printsAtTick reachesTick tickBound at *
  simp only [Bool.and_eq_true, Bool.or_eq_true, beq_iff_eq, decide_eq_true_eq, sec] at h ⊢
  rcases h with ⟨⟨-, h2⟩, -⟩
  rcases h2 with h0 | ⟨hle, -⟩
  · omega
  · omega

/-- Steps on an exited listener change nothing. -/
theorem listenerStep_exited (s : LState) (sig : Sig) (h : s.exited = true) :
    listenerStep s sig = s := by
  unfold listenerStep
  simp [h]

/-- Runs from an exited listener change nothing. -/
theorem listenerRun_exited (s : LState) (sigs : List Sig) (h : s.exited = true) :
    listenerRun s sigs = s := by
  induction sigs with
  | nil => rfl
  | cons a l ih =>
    unfold listenerRun at *
    simp only [List.foldl_cons, listenerStep_exited s a h]
    exact ih

/-! ## Claim C1 -/

/-- C1 counterexample: with a zero timeout and the cancellation context
already done at entry (and the select tie resolved towards the ready
`ctx.Done()` branch, as Go's pseudo-random select may do), `HealthySleep`
returns `false`, contradicting the claim that a zero or negative timeout
always returns `true` immediately. -/
theorem HealthySleep_zero_timeout_precancelled_returns_false :
    healthySleep ⟨0, true, false, [], some 0, false⟩ = .returned false 0 ∧ (0 : Int) ≤ 0 := by
  decide

/-- C1 (amended): with the healthcheck value present, a cancellation that
fires strictly before the timeout deadline makes the call return `false` at
the cancellation time; with no cancellation (or one strictly after the
deadline) the call returns `true` at the deadline; a zero or negative
timeout has deadline 0, so it returns `true` immediately provided the
context is not already cancelled at entry; when cancellation and deadline
coincide, the select tie-break decides the return value. -/
theorem HealthySleep_return_value_spec (i : HSInput) (hp : i.hcPresent = true) :
    (∀ c, i.cancelAt = some c → c < fireTime i → healthySleep i = .returned false c) ∧
    (i.cancelAt = none → healthySleep i = .returned true (fireTime i)) ∧
    (∀ c, i.cancelAt = some c → fireTime i < c → healthySleep i = .returned true (fireTime i)) ∧
    (∀ c, i.cancelAt = some c → c = fireTime i → healthySleep i = .returned i.mainBias (fireTime i)) ∧
    (i.timeout ≤ 0 → fireTime i = 0) ∧
    (i.timeout ≤ 0 → i.cancelAt = none → healthySleep i = .returned true 0) := by
  have hfz : i.timeout ≤ 0 → fireTime i = 0 := by
    intro h
    unfold fireTime
    omega
  refine ⟨?_, ?_, ?_, ?_, hfz, ?_⟩
  · intro c hc hlt
    unfold healthySleep retVal retTime mainReturn
    simp [hp, hc, hlt]
  · intro hc
    unfold healthySleep retVal retTime mainReturn
    simp [hp, hc]
  · intro c hc hlt
    unfold healthySleep retVal retTime mainReturn
    simp [hp, hc, hlt, Nat.lt_asymm hlt]
  · intro c hc he
    unfold healthySleep retVal retTime mainReturn
    simp [hp, hc, he]
  · intro ht hc
    unfold healthySleep retVal retTime mainReturn
    simp [hp, hc, hfz ht]

/-- C1 witness: a one-minute sleep with no cancellation returns `true` at
the 60-second mark. -/
theorem HealthySleep_return_value_spec_witness :
    healthySleep ⟨60000000000, true, false, [], none, true⟩ =
      .returned true (fireTime ⟨60000000000, true, false, [], none, true⟩) :=
  (HealthySleep_return_value_spec ⟨60000000000, true, false, [], none, true⟩ rfl).2.1 rfl

/-! ## Claim C2 -/

/-- C2 counterexample: a 1.5-second sleep (so the timeout is at least one
second) with the flag set at 1.2 seconds — during the call — emits no
`HEALTHY` line strictly before the call returns: the only reporting tick
whose window contains the request is at 2 seconds, after the 1.5-second
return. -/
theorem HealthySleep_late_request_unreported_before_return :
    printsBefore ⟨1500000000, true, false, [1200000000], none, true⟩ = [] ∧
    sec ≤ fireTime ⟨1500000000, true, false, [1200000000], none, true⟩ ∧
    1200000000 < retTime ⟨1500000000, true, false, [1200000000], none, true⟩ := by
  decide

/-- C2 (amended): for an uncancelled call carrying the healthcheck value, a
single request stored more than one second before the timeout deadline is
serviced — a `HEALTHY` line is printed at a tick strictly before the call
returns — and, because each tick atomically swaps the flag to false, the
single request is serviced at exactly one tick, so it never produces two
`HEALTHY` reports. -/
theorem HealthySleep_request_serviced_spec (i : HSInput) (s : Nat)
    (hp : i.hcPresent = true) (hcan : i.cancelAt = none) (hf : i.f0 = false)
    (hs : i.flagSets = [s]) (hbound : s + sec < fireTime i) :
    (∃ k, printsAtTick i k = true ∧ k * sec < retTime i) ∧
    (∀ k1 k2, printsAtTick i k1 = true → printsAtTick i k2 = true → k1 = k2) := by
  have hret : retTime i = fireTime i := by
    unfold retTime mainReturn
    rw [hcan]
  rw [← hret] at hbound
  constructor
  · refine ⟨s / sec + 1, ?_, ?_⟩
    · simp only [printsAtTick, reachesTick, pendingAtTick, hp, hcan, hs]
      simp only [sec] at hbound
      simp [sec]
      omega
    · simp only [sec] at hbound ⊢
      omega
  · intro k1 k2 h1 h2
    simp only [printsAtTick, pendingAtTick, hf, hs, List.any_cons, List.any_nil,
      Bool.and_eq_true, Bool.or_false, decide_eq_true_eq] at h1 h2
    rcases h1 with ⟨-, h1p⟩
    rcases h2 with ⟨-, h2p⟩
    rcases Nat.eq_zero_or_pos k1 with e1 | e1
    · rw [e1, if_pos rfl] at h1p
      exact absurd h1p (by simp)
    · rcases Nat.eq_zero_or_pos k2 with e2 | e2
      · rw [e2, if_pos rfl] at h2p
        exact absurd h2p (by simp)
      · rw [if_neg (Nat.pos_iff_ne_zero.mp e1)] at h1p
        rw [if_neg (Nat.pos_iff_ne_zero.mp e2)] at h2p
        simp only [Bool.and_eq_true, decide_eq_true_eq, sec] at h1p h2p
        omega

/-- C2 witness: a 5-second sleep with a single request at 2.3 seconds prints
`HEALTHY` before returning, and any two reporting ticks that print coincide. -/
theorem HealthySleep_request_serviced_spec_witness :
    (∃ k, printsAtTick ⟨5000000000, true, false, [2300000000], none, true⟩ k = true ∧
      k * sec < retTime ⟨5000000000, true, false, [2300000000], none, true⟩) ∧
    (∀ k1 k2, printsAtTick ⟨5000000000, true, false, [2300000000], none, true⟩ k1 = true →
      printsAtTick ⟨5000000000, true, false, [2300000000], none, true⟩ k2 = true → k1 = k2) :=
  HealthySleep_request_serviced_spec ⟨5000000000, true, false, [2300000000], none, true⟩
    2300000000 rfl rfl rfl rfl (by decide)

/-! ## Claim C4 -/

/-- C4: calling `HealthySleep` with a context that does not carry the
healthcheck value does print the diagnostic line, but the call does not
survive: the reporting goroutine immediately calls `Swap` on the nil
`*atomic.Bool` and panics, crashing the process instead of blocking and
returning — evaluated here at a one-minute timeout with no cancellation. -/
theorem HealthySleep_missing_context_value_panics :
    healthySleep ⟨60000000000, false, false, [], none, true⟩ = .panicked ∧
    healthySleepDiag ⟨60000000000, false, false, [], none, true⟩ = true := by
  decide

/-! ## Claim C5 -/

/-- C5 counterexample: in a 1.6-second uncancelled sleep with the flag set
at 1.3 seconds, the reporting goroutine prints `HEALTHY` at its 2-second
tick — strictly after `HealthySleep` returned control at 1.6 seconds. -/
theorem HealthySleep_report_after_return :
    printsAtTick ⟨1600000000, true, false, [1300000000], none, true⟩ 2 = true ∧
    retTime ⟨1600000000, true, false, [1300000000], none, true⟩ < 2 * sec := by
  decide

/-- C5 (amended): the reporting cycle does not leak unboundedly — the
goroutine runs at most one more iteration once the call has returned, so
every reachable tick, and in particular every `HEALTHY` print, happens no
later than one second after the return time. -/
theorem HealthySleep_reporting_stops_within_one_tick (i : HSInput) (k : Nat) :
    (reachesTick i k = true → k * sec ≤ retTime i + sec) ∧
    (printsAtTick i k = true → k * sec ≤ retTime i + sec) := by
  have hr : reachesTick i k = true → k * sec ≤ retTime i + sec := by
    intro h
    unfold reachesTick at h
    simp only [Bool.and_eq_true, Bool.or_eq_true, beq_iff_eq, decide_eq_true_eq] at h
    rcases h with ⟨-, h2⟩
    rcases h2 with h0 | ⟨hle, -⟩
    · simp [h0]
    · simp only [sec] at hle ⊢
      omega
  refine ⟨hr, fun h => hr ?_⟩
  unfold printsAtTick at h
  exact (Bool.and_eq_true_iff.mp h).1

/-- C5 witness: at the counterexample-like input with the flag set at 0.4
seconds, the 1-second tick prints and indeed lies within one second of the
1.6-second return. -/
theorem HealthySleep_reporting_stops_within_one_tick_witness :
    1 * sec ≤ retTime ⟨1600000000, true, false, [400000000], none, true⟩ + sec :=
  (HealthySleep_reporting_stops_within_one_tick
    ⟨1600000000, true, false, [400000000], none, true⟩ 1).2 (by decide)

/-! ## Claim C3 -/

/-- C3: on a terminate-class signal the running listener logs `exit signal
received`, suppresses interrupt/terminate/abort while leaving quit enabled,
exits, and fires the cancellation exactly once; any further delivered
signals — terminate-class ones included — leave the cancellation count at
one, so the firing is idempotent with no double-close hazard. -/
theorem listener_terminate_class_spec (s : LState) (sig : Sig)
    (hrun : s.exited = false) (hterm : termClass sig = true) :
    (listenerStep s sig).cancelCount = s.cancelCount + 1 ∧
    (listenerStep s sig).exited = true ∧
    (listenerStep s sig).ignored = [.interrupt, .term, .abrt] ∧
    Sig.quit ∉ (listenerStep s sig).ignored ∧
    (listenerStep s sig).logs = s.logs ++ ["exit signal received"] ∧
    (∀ sigs, (listenerRun (listenerStep s sig) sigs).cancelCount = s.cancelCount + 1) := by
  have hstep : listenerStep s sig =
      { s with
        logs := s.logs ++ ["exit signal received"],
        ignored := [.interrupt, .term, .abrt],
        exited := true,
        cancelCount := s.cancelCount + 1 } := by
    unfold listenerStep
    rw [hrun]
    cases sig <;> first | rfl | (exfalso; simp [termClass] at hterm)
  refine ⟨by rw [hstep], by rw [hstep], by rw [hstep], ?_, by rw [hstep], ?_⟩
  · rw [hstep]
    show Sig.quit ∉ ([.interrupt, .term, .abrt] : List Sig)
    decide
  · intro sigs
    rw [listenerRun_exited _ sigs (by rw [hstep]), hstep]

/-- C3 witness: a terminate signal delivered to the freshly started
listener fires the cancellation once, and a subsequent interrupt and
terminate leave the count at one. -/
theorem listener_terminate_class_spec_witness :
    (listenerStep initLState Sig.term).cancelCount = initLState.cancelCount + 1 ∧
    (listenerRun (listenerStep initLState Sig.term) [Sig.interrupt, Sig.term]).cancelCount =
      initLState.cancelCount + 1 :=
  ⟨(listener_terminate_class_spec initLState Sig.term rfl rfl).1,
   (listener_terminate_class_spec initLState Sig.term rfl rfl).2.2.2.2.2 [Sig.interrupt, Sig.term]⟩

/-! ## Claim C6 -/

/-- C6 counterexample: SIGQUIT is not in the set passed to `signal.Notify`
(main.go line 130), so a delivered quit signal is not forwarded to the
listener — contrary to the claim that quit is registered and consumed by
the listener under the terminate class. -/
theorem quit_not_registered :
    Sig.quit ∉ registeredSignals ∧ deliveredToListener Sig.quit = false := by
  decide

/-- C6 (amended): on startup the controller registers interest in
interrupt, terminate, abort and user-defined signal 1 only; quit is absent
from the registered set, so a delivered quit goes to the default OS handler
rather than the listener, even though the listener's switch would classify
quit as terminate-class if it ever received one. -/
theorem registered_signal_set_spec :
    registeredSignals = [.interrupt, .term, .abrt, .usr1] ∧
    deliveredToListener Sig.interrupt = true ∧
    deliveredToListener Sig.term = true ∧
    deliveredToListener Sig.abrt = true ∧
    deliveredToListener Sig.usr1 = true ∧
    deliveredToListener Sig.quit = false ∧
    termClass Sig.quit = true := by
  decide

/-! ## Claim C7 -/

/-- C7: a hangup, urgent-I/O or unknown signal processed by the running
listener leaves the shared state unchanged — the cancellation is not fired,
the healthcheck flag is not modified, the ignored set is unchanged and the
listener keeps running. -/
theorem listener_ignored_signals_frame (s : LState) (sig : Sig)
    (hrun : s.exited = false)
    (hclass : sig = .hup ∨ sig = .urg ∨ ∃ n, sig = .other n) :
    (listenerStep s sig).cancelCount = s.cancelCount ∧
    (listenerStep s sig).hcFlag = s.hcFlag ∧
    (listenerStep s sig).ignored = s.ignored ∧
    (listenerStep s sig).exited = false := by
  rcases hclass with h | h | ⟨n, h⟩ <;>
    subst h <;>
    simp [listenerStep, hrun]

/-- C7 witness: a hangup delivered to the freshly started listener changes
none of the shared state. -/
theorem listener_ignored_signals_frame_witness :
    (listenerStep initLState Sig.hup).cancelCount = initLState.cancelCount ∧
    (listenerStep initLState Sig.hup).hcFlag = initLState.hcFlag ∧
    (listenerStep initLState Sig.hup).ignored = initLState.ignored ∧
    (listenerStep initLState Sig.hup).exited = false :=
  listener_ignored_signals_frame initLState Sig.hup rfl (Or.inl rfl)

/-! ## Claim C8 -/

/-- C8: `LoadConfig` on a missing file returns the empty config and no
error; whenever it returns a non-nil error the file existed but could not
be read or failed to parse, and the returned config is still the empty
default. -/
theorem LoadConfig_error_handling_spec :
    LoadConfig .absent = (Config.zero, none) ∧
    (∀ f c e, LoadConfig f = (c, some e) →
      c = Config.zero ∧
      (f = .unreadable ∨ f = .parseFail ∨ ∃ j, f = .json j ∧ decodeConfig j = .error e)) := by
  refine ⟨rfl, ?_⟩
  intro f c e h
  cases f with
  | absent => simp [LoadConfig] at h
  | unreadable =>
    simp only [LoadConfig, Prod.mk.injEq] at h
    exact ⟨h.1.symm, Or.inl rfl⟩
  | parseFail =>
    simp only [LoadConfig, Prod.mk.injEq] at h
    exact ⟨h.1.symm, Or.inr (Or.inl rfl)⟩
  | json j =>
    cases hd : decodeConfig j with
    | ok c2 => simp [LoadConfig, hd] at h
    | error msg =>
      simp only [LoadConfig, hd, Prod.mk.injEq, Option.some.injEq] at h
      exact ⟨h.1.symm, Or.inr (Or.inr ⟨j, rfl, h.2 ▸ hd⟩)⟩

/-- C8 witness: an unreadable existing file yields the empty config and the
read error. -/
theorem LoadConfig_error_handling_spec_witness :
    Config.zero = Config.zero ∧
    (FileContent.unreadable = FileContent.unreadable ∨
      FileContent.unreadable = FileContent.parseFail ∨
      ∃ j, FileContent.unreadable = FileContent.json j ∧ decodeConfig j = .error "read error") :=
  LoadConfig_error_handling_spec.2 .unreadable Config.zero "read error" rfl

/-! ## Claim C9 -/

/-- C9 counterexample: two config files that both carry the two top-level
keys `logging` and `upgrades` and differ only in the upgrades policy
(`all` versus `security`) load to identical `Config` values — the loaded
record cannot be carrying the upgrades sub-section. -/
theorem LoadConfig_identical_on_upgrades :
    LoadConfig (.json sampleConfigAll) = LoadConfig (.json sampleConfigSecurity) ∧
    upgradesTypeOf sampleConfigAll = some "all" ∧
    upgradesTypeOf sampleConfigSecurity = some "security" := by
  decide

/-- C9 (amended): `LoadConfig` returns a `Config` carrying only the logging
sub-section; every top-level key that does not match the field tag
`logging` under `encoding/json`'s case-insensitive field matching — the
`upgrades` key included — is ignored during decoding; a document with both
keys loads to just its logging contents, and a spelling such as `Logging` /
`Disable` is accepted case-insensitively. -/
theorem LoadConfig_logging_only_spec :
    (∀ key v rest c, eqFold key "logging" = false →
      decodeConfigFields ((key, v) :: rest) c = decodeConfigFields rest c) ∧
    LoadConfig (.json sampleConfigAll) = (⟨⟨true, "", ""⟩⟩, none) ∧
    LoadConfig (.json (.obj [("Logging", .obj [("Disable", .bool true)]),
        ("upgrades", .obj [("type", .str "all")])])) = (⟨⟨true, "", ""⟩⟩, none) := by
  refine ⟨?_, by decide, by decide⟩
  intro key v rest c hk
  simp [decodeConfigFields, hk]

/-- C9 witness: the `upgrades` key folds differently from `logging`, so the
field decoder skips it, and the sample two-key document loads to its
logging contents only. -/
theorem LoadConfig_logging_only_spec_witness :
    decodeConfigFields [("upgrades", JsonVal.null)] Config.zero =
      decodeConfigFields [] Config.zero ∧
    LoadConfig (.json sampleConfigAll) = (⟨⟨true, "", ""⟩⟩, none) :=
  ⟨LoadConfig_logging_only_spec.1 "upgrades" .null [] Config.zero (by decide),
   LoadConfig_logging_only_spec.2.1⟩

/-! ## Claim C10 -/

/-- C10: `EnforceUpgrades` treats the policy `disabled` exactly like
`disable`: the effect traces coincide for every environment, and on a
supported distro the trace is exactly the idempotent write of the
auto-upgrades-disabled fragment (nothing when the file already matches),
with no package installation, no origins generation and no timer
enablement. -/
theorem EnforceUpgrades_disabled_alias_spec (env : UpgEnv) :
    EnforceUpgrades env ⟨"disabled"⟩ = EnforceUpgrades env ⟨"disable"⟩ ∧
    (checkSupportedDistro env = .ok () →
      (env.autoUpgradesCur = some autoUpgradesContentsDisabled →
        EnforceUpgrades env ⟨"disabled"⟩ = []) ∧
      (env.autoUpgradesCur ≠ some autoUpgradesContentsDisabled →
        EnforceUpgrades env ⟨"disabled"⟩ =
          [.mkdirFor autoUpgradesPath,
           .writeFile autoUpgradesPath autoUpgradesContentsDisabled,
           .logInfo "Disabled OS auto-upgrades."]) ∧
      (∀ e ∈ EnforceUpgrades env ⟨"disabled"⟩,
        e ≠ .aptUpdateInstall ∧ e ≠ .aptCachePolicy ∧ e ≠ .systemctlEnableTimer)) := by
  have halias : EnforceUpgrades env ⟨"disabled"⟩ = EnforceUpgrades env ⟨"disable"⟩ := by
    cases h : checkSupportedDistro env with
    | error e =>
      simp only [EnforceUpgrades, h]
      rfl
    | ok u =>
      cases u
      simp only [EnforceUpgrades, h]
      rfl
  refine ⟨halias, ?_⟩
  intro hok
  have hbranch : EnforceUpgrades env ⟨"disabled"⟩ =
      (writeFileIfNew env.autoUpgradesCur autoUpgradesPath autoUpgradesContentsDisabled).2 ++
        (if (writeFileIfNew env.autoUpgradesCur autoUpgradesPath autoUpgradesContentsDisabled).1
          then [.logInfo "Disabled OS auto-upgrades."] else []) := by
    simp only [EnforceUpgrades, hok]
    rfl
  have hsame : env.autoUpgradesCur = some autoUpgradesContentsDisabled →
      EnforceUpgrades env ⟨"disabled"⟩ = [] := by
    intro hc
    rw [hbranch, hc]
    rfl
  have hdiff : env.autoUpgradesCur ≠ some autoUpgradesContentsDisabled →
      EnforceUpgrades env ⟨"disabled"⟩ =
        [.mkdirFor autoUpgradesPath,
         .writeFile autoUpgradesPath autoUpgradesContentsDisabled,
         .logInfo "Disabled OS auto-upgrades."] := by
    intro hne
    rw [hbranch]
    cases hc : env.autoUpgradesCur with
    | none => rfl
    | some content =>
      have hb : (content == autoUpgradesContentsDisabled) = false := by
        refine beq_eq_false_iff_ne.mpr ?_
        intro hcontra
        exact hne (hc ▸ hcontra ▸ rfl)
      simp only [writeFileIfNew, hb]
      rfl
  refine ⟨hsame, hdiff, ?_⟩
  intro e he
  by_cases hc : env.autoUpgradesCur = some autoUpgradesContentsDisabled
  · rw [hsame hc] at he
    simp at he
  · rw [hdiff hc] at he
    simp only [List.mem_cons, List.not_mem_nil, or_false] at he
    rcases he with rfl | rfl | rfl
    · exact ⟨by decide, by decide, by decide⟩
    · exact ⟨by decide, by decide, by decide⟩
    · exact ⟨by decide, by decide, by decide⟩

/-- C10 witness: on a bookworm host with no pre-existing fragment, both
policy spellings produce exactly the mkdir, the disabling write, and the
info log. -/
theorem EnforceUpgrades_disabled_alias_spec_witness :
    EnforceUpgrades ⟨some "VERSION_CODENAME=bookworm", none, none, true, true, true, "", ""⟩
        ⟨"disabled"⟩ =
      EnforceUpgrades ⟨some "VERSION_CODENAME=bookworm", none, none, true, true, true, "", ""⟩
        ⟨"disable"⟩ ∧
    EnforceUpgrades ⟨some "VERSION_CODENAME=bookworm", none, none, true, true, true, "", ""⟩
        ⟨"disabled"⟩ =
      [.mkdirFor autoUpgradesPath,
       .writeFile autoUpgradesPath autoUpgradesContentsDisabled,
       .logInfo "Disabled OS auto-upgrades."] :=
  ⟨(EnforceUpgrades_disabled_alias_spec
      ⟨some "VERSION_CODENAME=bookworm", none, none, true, true, true, "", ""⟩).1,
   (((EnforceUpgrades_disabled_alias_spec
      ⟨some "VERSION_CODENAME=bookworm", none, none, true, true, true, "", ""⟩).2
        (by rfl)).2.1 (by decide))⟩

end Syscfg
